import Mathlib

/-!
Verification of the reddit-newsletters repository (viral-content-machine.py).

The program fetches top posts of a subreddit and, for each post, prints a
bounded number of its top comments after an eligibility filter.  This file
gives a shallow embedding of the script: pure Lean functions model the
selection loop (lines 61-74), the rendering (textwrap.fill and the print
statements), the per-post processing loop with its surrounding try/except
(lines 43-80), credential checking and exit codes (get_reddit_instance,
main), and the praw comment-forest call replace_more(limit=0).
-/

/-- A reddit comment as consumed by the script: the `stickied` flag, the
body text and the integer score (Python ints are unbounded, scores may be
negative). -/
structure Comment where
  stickied : Bool
  body : String
  score : Int
deriving DecidableEq, Repr

/-- An element of a comment forest as praw presents it: either a real
top-level comment, or a MoreComments placeholder ("load more" link) whose
expansion would yield the listed hidden comments. -/
inductive ForestItem where
  | comment (c : Comment)
  | more (hidden : List Comment)
deriving DecidableEq, Repr

/-- Eligibility test from line 65 of the script:
`not comment.stickied and comment.body != "[deleted]" and comment.body != "[removed]"`. -/
def eligibleComment (c : Comment) : Bool :=
  !c.stickied && c.body != "[deleted]" && c.body != "[removed]"

/-- Model of the praw call `post.comments.replace_more(limit=0)` at line 59
followed by iterating `post.comments`: per the praw documentation, a limit
of 0 removes every MoreComments placeholder from the forest without
fetching it, so iteration yields exactly the comments already materialized,
in order. -/
def replace_more_limit0 : List ForestItem → List Comment
  | [] => []
  | ForestItem.comment c :: rest => c :: replace_more_limit0 rest
  | ForestItem.more _ :: rest => replace_more_limit0 rest

/-- Modelled from the spec: the spec (section 4.4, step 2) describes the
call at line 59 as expanding the load-more placeholders "with no limit" so
that the comments they stand for are materialized.  This definition follows
those words (praw would only behave this way under limit=None, and that
behaviour is not what the source requests); it exists to be compared with
`replace_more_limit0`. -/
def expandAllPlaceholders : List ForestItem → List Comment
  | [] => []
  | ForestItem.comment c :: rest => c :: expandAllPlaceholders rest
  | ForestItem.more hidden :: rest => hidden ++ expandAllPlaceholders rest

/-- Selection effect of the loop at lines 61-71: starting from the counter
`comments_fetched = fetched`, the loop breaks as soon as
`comments_fetched >= comment_limit`, and otherwise collects each comment
passing the eligibility test, incrementing the counter. -/
def select_loop (comment_limit : Int) : List Comment → Int → List Comment
  | [], _ => []
  | c :: rest, fetched =>
    if fetched ≥ comment_limit then []
    else if eligibleComment c then c :: select_loop comment_limit rest (fetched + 1)
    else select_loop comment_limit rest fetched

/-- The comment selection of the script for one post (the spec names it
selectTopComments): materialize the comment forest via
replace_more(limit=0), then run the selection loop with the counter at 0. -/
def selectTopComments (forest : List ForestItem) (comment_limit : Int) : List Comment :=
  select_loop comment_limit (replace_more_limit0 forest) 0

/-- The selection loop is filter-then-truncate: with the counter at
`fetched`, it returns the first `(comment_limit - fetched).toNat` eligible
comments in input order. -/
theorem select_loop_eq_filter_take (comment_limit : Int) :
    ∀ (cs : List Comment) (fetched : Int),
      select_loop comment_limit cs fetched
        = (cs.filter eligibleComment).take (comment_limit - fetched).toNat := by
  intro cs
  induction cs with
  | nil => intro fetched; simp [select_loop]
  | cons c rest ih =>
    intro fetched
    by_cases hf : fetched ≥ comment_limit
    · have h0 : (comment_limit - fetched).toNat = 0 := by omega
      simp [select_loop, hf, h0]
    · by_cases he : eligibleComment c
      · have hpos : (comment_limit - fetched).toNat
            = (comment_limit - (fetched + 1)).toNat + 1 := by omega
        simp only [select_loop, if_neg hf, if_pos he, List.filter_cons_of_pos he, hpos,
          List.take_succ_cons]
        exact congrArg (c :: ·) (ih (fetched + 1))
      · simp only [select_loop, if_neg hf, if_neg he,
          List.filter_cons_of_neg (by simpa using he)]
        exact ih fetched

/-!
Model of Python textwrap.fill as called at line 67:
`textwrap.fill(body, width=70, initial_indent="    ", subsequent_indent="    ")`
with the default wrapper settings (expand_tabs, replace_whitespace,
drop_whitespace, break_long_words all on).  The hyphen-aware chunk
splitting of textwrap is simplified to whitespace-run splitting; this does
not affect the line-width or indent properties stated below, which are
proved for arbitrary chunk lists.
-/

/-- The six characters of Python string.whitespace as used by textwrap. -/
def isPythonWs (c : Char) : Bool :=
  c == ' ' || c == '\t' || c == '\n' || c == '\x0b' || c == '\x0c' || c == '\r'

/-- Python str.expandtabs with the default tab size 8: each tab becomes
spaces up to the next multiple-of-8 column, and the column counter resets
on a line break. -/
def pythonExpandtabs : List Char → Nat → List Char
  | [], _ => []
  | c :: rest, col =>
    if c == '\t' then
      let n := 8 - col % 8
      List.replicate n ' ' ++ pythonExpandtabs rest (col + n)
    else if c == '\n' || c == '\r' then c :: pythonExpandtabs rest 0
    else c :: pythonExpandtabs rest (col + 1)

/-- TextWrapper munge step: expand tabs, then turn every remaining
whitespace character into a plain space. -/
def munge_whitespace (l : List Char) : List Char :=
  (pythonExpandtabs l 0).map (fun c => if isPythonWs c then ' ' else c)

/-- Split a munged text into maximal runs of spaces and of non-spaces, the
chunk granularity textwrap wraps at. -/
def splitChunks : List Char → List (List Char)
  | [] => []
  | c :: rest =>
    match splitChunks rest with
    | [] => [[c]]
    | [] :: groups => [c] :: [] :: groups
    | (d :: ds) :: groups =>
      if (c == ' ') == (d == ' ') then (c :: d :: ds) :: groups
      else [c] :: (d :: ds) :: groups

/-- A chunk counting as whitespace for the drop tests (strip() is empty). -/
def isWsChunk (chunk : List Char) : Bool := chunk.all (fun c => c == ' ')

/-- Total character count of a chunk list. -/
def chunksLen (l : List (List Char)) : Nat := (l.map List.length).sum

/-- The inner while of textwrap _wrap_chunks: move chunks onto the current
line while the accumulated length stays within the line width. -/
def greedyTake (w : Nat) (curLen : Nat) : List (List Char) → List (List Char) × List (List Char)
  | [] => ([], [])
  | c :: rest =>
    if curLen + c.length ≤ w then
      let r := greedyTake w (curLen + c.length) rest
      (c :: r.1, r.2)
    else ([], c :: rest)

/-- The handle-long-word step of textwrap with break_long_words: when the
next chunk alone exceeds the line width, break off as many characters as
still fit on the current line (at least one when the width is below 1). -/
def longWordAdjust (w : Nat) (cur rest : List (List Char)) :
    List (List Char) × List (List Char) :=
  match rest with
  | [] => (cur, [])
  | c :: rest2 =>
    if w < c.length then
      let spaceLeft := if w < 1 then 1 else w - chunksLen cur
      (cur ++ [c.take spaceLeft], c.drop spaceLeft :: rest2)
    else (cur, c :: rest2)

/-- The drop_whitespace step at the end of a line: one trailing whitespace
chunk is removed from the current line. -/
def dropTrailingWs : List (List Char) → List (List Char)
  | [] => []
  | [c] => if isWsChunk c then [] else [c]
  | c :: c2 :: rest => c :: dropTrailingWs (c2 :: rest)

/-- The drop_whitespace step at the start of a line: once at least one line
has been emitted, a leading whitespace chunk is removed. -/
def dropLeadingWs (first : Bool) (chunks : List (List Char)) : List (List Char) :=
  match first, chunks with
  | false, c :: rest => if isWsChunk c then rest else c :: rest
  | _, cs => cs

/-- One iteration of the outer loop of _wrap_chunks for a given line width:
greedy fill, long-word breaking, trailing-whitespace drop; returns the line
content (before indentation) and the remaining chunks. -/
def wrapLine (w : Nat) (chunks : List (List Char)) : List Char × List (List Char) :=
  let g := greedyTake w 0 chunks
  let a := longWordAdjust w g.1 g.2
  ((dropTrailingWs a.1).flatten, a.2)

/-- The outer loop of _wrap_chunks.  The fuel argument only bounds the
number of iterations; the callers below supply chunksLen + length + 1 fuel,
which the measure argument for the loop (every iteration consumes a chunk
or at least one character of the first chunk) makes sufficient. -/
def wrapFuel (width : Nat) (initial_indent subsequent_indent : List Char) :
    Nat → Bool → List (List Char) → List (List Char)
  | 0, _, _ => []
  | _, _, [] => []
  | fuel + 1, first, c :: cs =>
    let ind := if first then initial_indent else subsequent_indent
    let p := wrapLine (width - ind.length) (dropLeadingWs first (c :: cs))
    if p.1.isEmpty then wrapFuel width initial_indent subsequent_indent fuel first p.2
    else (ind ++ p.1) :: wrapFuel width initial_indent subsequent_indent fuel false p.2

/-- Python textwrap.wrap on a text: munge whitespace, split into chunks,
run the wrap loop.  Returns the list of output lines. -/
def textwrap_wrap (width : Nat) (initial_indent subsequent_indent : String)
    (text : String) : List String :=
  let chunks := splitChunks (munge_whitespace text.data)
  (wrapFuel width initial_indent.data subsequent_indent.data
      (chunksLen chunks + chunks.length + 1) true chunks).map (fun l => String.mk l)

/-- The lines of the textwrap.fill call at line 67 of the script:
width 70, both indents four spaces. -/
def textwrap_fill_lines (text : String) : List String :=
  textwrap_wrap 70 "    " "    " text

/-- Printing the string "\n".join(lines): the printed lines are exactly
the given ones, or a single empty line when there are none. -/
def emitLines (lines : List String) : List String :=
  if lines.isEmpty then [""] else lines

/-- Flattening a chunk list yields chunksLen characters. -/
theorem chunksLen_flatten : ∀ l : List (List Char), l.flatten.length = chunksLen l := by
  intro l
  induction l with
  | nil => simp [chunksLen]
  | cons c rest ih => simp [chunksLen, List.flatten_cons, ih]

/-- The greedy fill never exceeds the line width: starting from an
accumulated length within the width, the taken chunks keep the total
within the width. -/
theorem greedyTake_len (w : Nat) :
    ∀ (cs : List (List Char)) (k : Nat), k ≤ w →
      k + chunksLen (greedyTake w k cs).1 ≤ w := by
  intro cs
  induction cs with
  | nil => intro k hk; simpa [greedyTake, chunksLen] using hk
  | cons c rest ih =>
    intro k hk
    by_cases h : k + c.length ≤ w
    · have := ih (k + c.length) h
      simp only [greedyTake, if_pos h, chunksLen, List.map_cons, List.sum_cons]
      simp only [chunksLen] at this
      omega
    · simpa [greedyTake, if_neg h, chunksLen] using hk

/-- The long-word break keeps the line within the width (for positive
width). -/
theorem longWordAdjust_len (w : Nat) (cur rest : List (List Char))
    (hcur : chunksLen cur ≤ w) (hw : 1 ≤ w) :
    chunksLen (longWordAdjust w cur rest).1 ≤ w := by
  match rest with
  | [] => simpa [longWordAdjust] using hcur
  | c :: rest2 =>
    by_cases h : w < c.length
    · have hw1 : ¬ w < 1 := by omega
      simp only [longWordAdjust, if_pos h, if_neg hw1, chunksLen, List.map_append,
        List.sum_append, List.map_cons, List.sum_cons, List.map_nil, List.sum_nil,
        List.length_take]
      simp only [chunksLen] at hcur
      omega
    · simpa [longWordAdjust, if_neg h] using hcur

/-- Dropping the trailing whitespace chunk does not lengthen the line. -/
theorem chunksLen_dropTrailingWs_le :
    ∀ l : List (List Char), chunksLen (dropTrailingWs l) ≤ chunksLen l := by
  intro l
  induction l with
  | nil => simp [dropTrailingWs]
  | cons c rest ih =>
    match rest with
    | [] =>
      by_cases h : isWsChunk c
      · simp [dropTrailingWs, h, chunksLen]
      · simp [dropTrailingWs, h]
    | c2 :: rest2 =>
      simp only [dropTrailingWs, chunksLen, List.map_cons, List.sum_cons] at ih ⊢
      omega

/-- One wrap iteration produces a line content within the line width. -/
theorem wrapLine_len (w : Nat) (chunks : List (List Char)) (hw : 1 ≤ w) :
    (wrapLine w chunks).1.length ≤ w := by
  simp only [wrapLine, chunksLen_flatten]
  have hg := greedyTake_len w chunks 0 (by omega)
  have ha := longWordAdjust_len w (greedyTake w 0 chunks).1 (greedyTake w 0 chunks).2
    (by omega) hw
  have hd := chunksLen_dropTrailingWs_le (longWordAdjust w (greedyTake w 0 chunks).1
    (greedyTake w 0 chunks).2).1
  omega

/-- Every output line of the wrap loop (with equal indents) is the indent
followed by at most width-minus-indent characters. -/
theorem wrapFuel_mem (width : Nat) (ind : List Char)
    (hw : 1 ≤ width - ind.length) :
    ∀ (fuel : Nat) (first : Bool) (chunks : List (List Char)) (l : List Char),
      l ∈ wrapFuel width ind ind fuel first chunks →
      ∃ r, l = ind ++ r ∧ r.length ≤ width - ind.length := by
  intro fuel
  induction fuel with
  | zero => intro first chunks l hl; simp [wrapFuel] at hl
  | succ n ih =>
    intro first chunks l hl
    match chunks with
    | [] => simp [wrapFuel] at hl
    | c :: cs =>
      simp only [wrapFuel, ite_self] at hl
      by_cases hemp : (wrapLine (width - ind.length) (dropLeadingWs first (c :: cs))).1.isEmpty
      · rw [if_pos hemp] at hl
        exact ih first _ l hl
      · rw [if_neg hemp] at hl
        rcases List.mem_cons.mp hl with h | h
        · exact ⟨_, h, wrapLine_len _ _ hw⟩
        · exact ih false _ l h

/-- The printed lines for one selected comment (lines 66-70 of the script):
the score line, the wrapped body (a single print of the fill result, hence
one empty line when the fill is empty), and the 20-dash separator. -/
def renderCommentLines (c : Comment) : List String :=
  ("  - (Score: " ++ toString c.score ++ ")")
    :: emitLines (textwrap_fill_lines c.body)
    ++ [String.mk (List.replicate 20 '-')]

/-- The printing loop at lines 62-71 with its `comments_fetched` counter:
returns the printed lines and the final counter value. -/
def commentLoop (comment_limit : Int) : List Comment → Int → List String × Int
  | [], fetched => ([], fetched)
  | c :: rest, fetched =>
    if fetched ≥ comment_limit then ([], fetched)
    else if eligibleComment c then
      let r := commentLoop comment_limit rest (fetched + 1)
      (renderCommentLines c ++ r.1, r.2)
    else commentLoop comment_limit rest fetched

/-- The comment section printed for one post (lines 57-74): materialize the
forest, run the printing loop, and print the placeholder line when the
counter stayed at zero. -/
def commentSection (forest : List ForestItem) (comment_limit : Int) : List String :=
  let r := commentLoop comment_limit (replace_more_limit0 forest) 0
  r.1 ++ (if r.2 = 0 then ["    No valid comments found for this post."] else [])

/-- A fetched post as the script consumes it: title, score, url, and the
outcome of fetching its comment forest (listing plus replace_more may fail
with an error message). -/
structure PostData where
  title : String
  score : Int
  url : String
  comments : Except String (List ForestItem)
deriving Repr

/-- The header lines printed for post number i (0-based; lines 51-55). -/
def postHeader (i : Nat) (p : PostData) : List String :=
  ["", String.mk (List.replicate 10 '=') ++ " POST #" ++ toString (i + 1) ++ " "
        ++ String.mk (List.replicate 10 '='),
   "📄 TITLE: " ++ p.title,
   "👍 SCORE: " ++ toString p.score,
   "🔗 URL: " ++ p.url,
   "", "💬 TOP COMMENTS:", ""]

/-- The diagnostic printed by the except handler at lines 78-80. -/
def fetchErrorLines (subreddit_name : String) (e : String) : List String :=
  ["", "🔴 ERROR: Could not fetch posts from r/" ++ subreddit_name ++ ".",
   "Please ensure the subreddit exists and is public. Details: " ++ e]

/-- The closing border printed after a post (line 76). -/
def closingLines : List String :=
  [String.mk (List.replicate 30 '='), ""]

/-- The per-post loop at lines 50-76 under the try of line 43: a comment
fetch failure raises out of the loop into the except handler, so the
diagnostic is printed and no further post is processed. -/
def postsLoop (subreddit_name : String) (comment_limit : Int) :
    Nat → List PostData → List String
  | _, [] => []
  | i, post :: rest =>
    postHeader i post ++
      match post.comments with
      | Except.error e => fetchErrorLines subreddit_name e
      | Except.ok forest =>
        commentSection forest comment_limit ++ closingLines
          ++ postsLoop subreddit_name comment_limit (i + 1) rest

/-- The printed lines of get_newletter_content (lines 39-80): the hunting
banner and the 80-dash rule always print (the listing call is lazy, its
failure surfaces only when the loop first draws from it); then either the
except diagnostic or the post loop. -/
def get_newletter_content (subreddit_name : String) (limit : Int)
    (time_filter : String) (comment_limit : Int)
    (fetch : Except String (List PostData)) : List String :=
  ["", "🔍 Hunting for top " ++ toString limit ++ " posts in r/" ++ subreddit_name
      ++ " from the past " ++ time_filter ++ "...",
   String.mk (List.replicate 80 '-')]
  ++ match fetch with
     | Except.error e => fetchErrorLines subreddit_name e
     | Except.ok posts => postsLoop subreddit_name comment_limit 0 posts

/-- The three credential environment variables as os.getenv sees them:
absent (None) or present with a string value. -/
structure Env where
  reddit_client_id : Option String
  reddit_client_secret : Option String
  reddit_user_agent : Option String
deriving DecidableEq, Repr

/-- Python truthiness of an os.getenv result: None and the empty string
are falsy. -/
def truthy : Option String → Bool
  | none => false
  | some s => !s.isEmpty

/-- The check at line 18: `all([client_id, client_secret, user_agent])`. -/
def credentialsPresent (env : Env) : Bool :=
  truthy env.reddit_client_id && truthy env.reddit_client_secret
    && truthy env.reddit_user_agent

/-- The printed lines and exit outcome of get_reddit_instance (lines 7-36):
missing or blank credentials exit 1 before any authentication attempt; a
failed identity check exits 1; success prints the acknowledgment and
continues (no exit). -/
def get_reddit_instance (env : Env) (auth : Except String Unit) :
    List String × Option Nat :=
  if credentialsPresent env = false then
    (["🔴 ERROR: Reddit API credentials not found.",
      "Please set REDDIT_CLIENT_ID, REDDIT_CLIENT_SECRET, and REDDIT_USER_AGENT environment variables.",
      "Check the README.md for instructions."], some 1)
  else
    match auth with
    | Except.ok _ => (["✅ Successfully authenticated with Reddit API."], none)
    | Except.error e =>
      (["🔴 ERROR: Could not authenticate with Reddit. Please check your credentials. Details: "
          ++ e], some 1)

/-- The whole run of main (lines 83-114) after argument parsing: printed
lines and process exit status.  Reaching the end of the script exits 0. -/
def main_run (env : Env) (auth : Except String Unit) (subreddit : String)
    (limit : Int) (time_filter : String) (comment_limit : Int)
    (fetch : Except String (List PostData)) : List String × Nat :=
  match get_reddit_instance env auth with
  | (ls, some code) => (ls, code)
  | (ls, none) =>
    (ls ++ get_newletter_content subreddit limit time_filter comment_limit fetch
        ++ ["", "✅ All done! Copy the output above and use it with your AI tool."], 0)

/-- Concrete eligible comment used in witnesses and counterexamples. -/
def exComment : Comment := { stickied := false, body := "hello world", score := 10 }

/-- Concrete eligible comment hidden behind a load-more placeholder. -/
def exHidden : Comment := { stickied := false, body := "hidden reply", score := 3 }

/-- Concrete stickied comment. -/
def exSticky : Comment := { stickied := true, body := "pinned", score := 50 }

/-- Concrete deleted comment. -/
def exDeleted : Comment := { stickied := false, body := "[deleted]", score := 9 }

/-- C1 counterexample: at commentLimit = -1 (argparse accepts any int) the
selection returns the empty sequence, whose length 0 is not at most -1, so
the claimed bound fails for a negative commentLimit. -/
theorem c1_counterexample :
    ¬ (((selectTopComments [ForestItem.comment exComment] (-1)).length : Int) ≤ -1) := by
  decide

/-- C1 (amended): for every post and every nonnegative commentLimit the
selection returns at most commentLimit comments, and for every commentLimit
whatsoever every returned comment passes the eligibility filter (not
stickied, body neither "[deleted]" nor "[removed]"). -/
theorem c1_amended (forest : List ForestItem) (comment_limit : Int) :
    (0 ≤ comment_limit →
      ((selectTopComments forest comment_limit).length : Int) ≤ comment_limit)
    ∧ ∀ c ∈ selectTopComments forest comment_limit, eligibleComment c = true := by
  have h := select_loop_eq_filter_take comment_limit (replace_more_limit0 forest) 0
  constructor
  · intro hnn
    rw [selectTopComments, h]
    have hlen := List.length_take_le (comment_limit - 0).toNat
      ((replace_more_limit0 forest).filter eligibleComment)
    omega
  · intro c hc
    rw [selectTopComments, h] at hc
    exact List.of_mem_filter (List.mem_of_mem_take hc)

/-- C1 witness: a concrete instance of the amended bound. -/
theorem c1_amended_witness :
    ((selectTopComments [ForestItem.comment exComment] 2).length : Int) ≤ 2 :=
  (c1_amended [ForestItem.comment exComment] 2).1 (by decide)

/-- C2: the selection is exactly filter-then-truncate on the materialized
input sequence (the first commentLimit eligible comments in input order),
and in particular the selected comments form a sublist of the input, so
their relative order is the upstream order with no re-sorting. -/
theorem c2_filter_then_truncate (forest : List ForestItem) (comment_limit : Int) :
    selectTopComments forest comment_limit
      = ((replace_more_limit0 forest).filter eligibleComment).take comment_limit.toNat
    ∧ List.Sublist (selectTopComments forest comment_limit) (replace_more_limit0 forest) := by
  have h := select_loop_eq_filter_take comment_limit (replace_more_limit0 forest) 0
  have h0 : comment_limit - 0 = comment_limit := by omega
  refine ⟨?_, ?_⟩
  · rw [selectTopComments, h, h0]
  · rw [selectTopComments, h]
    exact (List.take_sublist _ _).trans (List.filter_sublist _)

/-- C3 counterexample: a forest holding only a load-more placeholder.  The
call replace_more(limit=0) removes the placeholder without fetching, so the
eligible comment behind it is dropped from consideration; expansion "with
no limit" as the claim describes would have materialized it. -/
theorem c3_counterexample :
    replace_more_limit0 [ForestItem.more [exHidden]] = []
    ∧ expandAllPlaceholders [ForestItem.more [exHidden]] = [exHidden]
    ∧ eligibleComment exHidden = true
    ∧ selectTopComments [ForestItem.more [exHidden]] 5 = [] := by
  decide

/-- C3 (amended): before traversal the selector removes every load-more
placeholder without fetching it (replace_more with limit 0), so the
traversed sequence is exactly the comments already materialized in the
listing, in order; comments behind placeholders are not considered. -/
theorem c3_placeholders_removed (forest : List ForestItem) :
    replace_more_limit0 forest
      = forest.filterMap (fun item =>
          match item with
          | ForestItem.comment c => some c
          | ForestItem.more _ => none) := by
  induction forest with
  | nil => rfl
  | cons item rest ih =>
    cases item <;> simp [replace_more_limit0, List.filterMap_cons, ih]

/-- C5: a commentLimit of 0 always yields the empty selection. -/
theorem c5_zero_limit (forest : List ForestItem) :
    selectTopComments forest 0 = [] := by
  rw [selectTopComments, select_loop_eq_filter_take]
  simp

/-- The printing loop leaves the counter unchanged and prints nothing when
every comment of the input fails the eligibility filter. -/
theorem commentLoop_all_ineligible (comment_limit : Int) :
    ∀ (cs : List Comment) (fetched : Int),
      (∀ c ∈ cs, eligibleComment c = false) →
      commentLoop comment_limit cs fetched = ([], fetched) := by
  intro cs
  induction cs with
  | nil => intro fetched _; rfl
  | cons c rest ih =>
    intro fetched h
    have hc : eligibleComment c = false := h c (by simp)
    by_cases hf : fetched ≥ comment_limit
    · simp [commentLoop, hf]
    · rw [commentLoop, if_neg hf, hc]
      simp only [Bool.false_eq_true, if_false]
      exact ih fetched (fun d hd => h d (by simp [hd]))

/-- C6: when no comment of the materialized collection is eligible, the
selection is empty and the printed comment section is exactly the fixed
placeholder line. -/
theorem c6_no_eligible (forest : List ForestItem) (comment_limit : Int)
    (h : ∀ c ∈ replace_more_limit0 forest, eligibleComment c = false) :
    selectTopComments forest comment_limit = []
    ∧ commentSection forest comment_limit
        = ["    No valid comments found for this post."] := by
  constructor
  · rw [selectTopComments, select_loop_eq_filter_take]
    have hf : (replace_more_limit0 forest).filter eligibleComment = [] := by
      simp only [List.filter_eq_nil_iff]
      intro a ha
      simp [h a ha]
    rw [hf]
    simp
  · simp only [commentSection, commentLoop_all_ineligible comment_limit _ 0 h]
    rfl

/-- C6 witness: a post whose comments are a stickied comment and a deleted
one; the placeholder line is printed. -/
theorem c6_witness :
    selectTopComments [ForestItem.comment exSticky, ForestItem.comment exDeleted] 3 = []
    ∧ commentSection [ForestItem.comment exSticky, ForestItem.comment exDeleted] 3
        = ["    No valid comments found for this post."] :=
  c6_no_eligible _ 3 (by decide)

/-- C10: for every negative commentLimit the loop breaks before examining
any comment, the selection is empty, and the placeholder line is printed
even when eligible comments are present. -/
theorem c10_negative_limit (forest : List ForestItem) (comment_limit : Int)
    (h : comment_limit < 0) :
    selectTopComments forest comment_limit = []
    ∧ commentSection forest comment_limit
        = ["    No valid comments found for this post."] := by
  have hloop : commentLoop comment_limit (replace_more_limit0 forest) 0 = ([], 0) := by
    cases hcs : replace_more_limit0 forest with
    | nil => rfl
    | cons c rest =>
      rw [commentLoop, if_pos (by omega : (0 : Int) ≥ comment_limit)]
  constructor
  · rw [selectTopComments, select_loop_eq_filter_take]
    have h0 : (comment_limit - 0).toNat = 0 := by omega
    rw [h0]
    simp
  · simp only [commentSection, hloop]
    rfl

/-- C10 witness: an eligible comment is present, the limit is -1, the
selection is empty and the placeholder line is printed. -/
theorem c10_witness :
    selectTopComments [ForestItem.comment exComment] (-1) = []
    ∧ commentSection [ForestItem.comment exComment] (-1)
        = ["    No valid comments found for this post."] :=
  c10_negative_limit [ForestItem.comment exComment] (-1) (by decide)

/-- Once a post with a failed comment fetch is reached (all earlier posts
fetched fine), the loop output equals the output with the later posts
removed, and the except diagnostic naming the community is printed: the
exception leaves the for loop, so no later post is processed. -/
theorem postsLoop_stops (subreddit_name : String) (comment_limit : Int)
    (pbad : PostData) (e : String) (he : pbad.comments = Except.error e) :
    ∀ (pre : List PostData) (i : Nat) (rest : List PostData),
      (∀ p ∈ pre, ∃ cl, p.comments = Except.ok cl) →
      postsLoop subreddit_name comment_limit i (pre ++ pbad :: rest)
        = postsLoop subreddit_name comment_limit i (pre ++ [pbad])
      ∧ ("🔴 ERROR: Could not fetch posts from r/" ++ subreddit_name ++ ".")
          ∈ postsLoop subreddit_name comment_limit i (pre ++ pbad :: rest) := by
  intro pre
  induction pre with
  | nil =>
    intro i rest _
    constructor
    · simp only [List.nil_append, postsLoop, he]
    · simp only [List.nil_append, postsLoop, he, fetchErrorLines]
      exact List.mem_append_right _ (by simp)
  | cons p pre ih =>
    intro i rest hok
    obtain ⟨cl, hcl⟩ := hok p (by simp)
    have ihr := ih (i + 1) rest (fun q hq => hok q (by simp [hq]))
    constructor
    · simp only [List.cons_append, postsLoop, hcl, List.append_eq]
      rw [ihr.1]
    · simp only [List.cons_append, postsLoop, hcl, List.append_eq]
      exact List.mem_append_right _ (List.mem_append_right _ ihr.2)

/-- Concrete post whose comment fetch fails. -/
def exPostBad : PostData :=
  { title := "T1", score := 1, url := "u1", comments := Except.error "boom" }

/-- Concrete post with an empty comment forest. -/
def exPostOk1 : PostData :=
  { title := "T1", score := 1, url := "u1", comments := Except.ok [] }

/-- Concrete second post with an empty comment forest. -/
def exPostOk2 : PostData :=
  { title := "T2", score := 2, url := "u2", comments := Except.ok [] }

/-- C4 counterexample: with two posts where the first comment fetch fails,
the second post is never rendered (its title line is absent), although it
is rendered when the first post succeeds — so a failure while processing
one post does abort the processing of the remaining posts. -/
theorem c4_counterexample :
    ("📄 TITLE: T2")
        ∉ get_newletter_content "test" 5 "month" 3 (Except.ok [exPostBad, exPostOk2])
    ∧ ("📄 TITLE: T2")
        ∈ get_newletter_content "test" 5 "month" 3 (Except.ok [exPostOk1, exPostOk2]) := by
  decide

/-- C4 (amended): a fetch failure is caught and non-fatal to the process
(the diagnostic naming the community is printed, and with valid credentials
the run still exits 0), but it is caught at the whole-listing level, not
per post: the output is the same as if the posts after the failing one did
not exist, so a failure while processing one post aborts the processing of
the remaining posts. -/
theorem c4_failure_aborts_rest (subreddit_name : String) (limit : Int)
    (time_filter : String) (comment_limit : Int)
    (pre : List PostData) (pbad : PostData) (rest : List PostData) (e : String)
    (hok : ∀ p ∈ pre, ∃ cl, p.comments = Except.ok cl)
    (he : pbad.comments = Except.error e) :
    get_newletter_content subreddit_name limit time_filter comment_limit
        (Except.ok (pre ++ pbad :: rest))
      = get_newletter_content subreddit_name limit time_filter comment_limit
        (Except.ok (pre ++ [pbad]))
    ∧ ("🔴 ERROR: Could not fetch posts from r/" ++ subreddit_name ++ ".")
        ∈ get_newletter_content subreddit_name limit time_filter comment_limit
            (Except.ok (pre ++ pbad :: rest))
    ∧ ∀ (env : Env) (auth : Except String Unit),
        credentialsPresent env = true → auth = Except.ok () →
        (main_run env auth subreddit_name limit time_filter comment_limit
            (Except.ok (pre ++ pbad :: rest))).2 = 0 := by
  have hp := postsLoop_stops subreddit_name comment_limit pbad e he pre 0 rest hok
  refine ⟨?_, ?_, ?_⟩
  · simp only [get_newletter_content, hp.1]
  · simp only [get_newletter_content]
    exact List.mem_append_right _ hp.2
  · intro env auth hc ha
    subst ha
    simp [main_run, get_reddit_instance, hc]

/-- C4 witness: concrete instance with one failing post followed by one
more post. -/
theorem c4_witness :
    ("🔴 ERROR: Could not fetch posts from r/" ++ "test" ++ ".")
        ∈ get_newletter_content "test" 5 "month" 3
            (Except.ok ([] ++ exPostBad :: [exPostOk2])) :=
  (c4_failure_aborts_rest "test" 5 "month" 3 [] exPostBad [exPostOk2] "boom"
    (by simp) rfl).2.1

/-- C7: the run exits 1 exactly when credentials are missing or blank or
the remote authentication check fails; with credentials present and
authentication succeeding the run exits 0 whatever the fetch outcome, the
final completion line is the last line printed, and on a fetch failure the
diagnostic is printed. -/
theorem c7_exit_status (env : Env) (auth : Except String Unit) (subreddit : String)
    (limit : Int) (time_filter : String) (comment_limit : Int)
    (fetch : Except String (List PostData)) :
    ((main_run env auth subreddit limit time_filter comment_limit fetch).2 = 1
      ↔ (credentialsPresent env = false ∨ ∃ e, auth = Except.error e))
    ∧ (credentialsPresent env = true → auth = Except.ok () →
        (main_run env auth subreddit limit time_filter comment_limit fetch).2 = 0
        ∧ (main_run env auth subreddit limit time_filter comment_limit fetch).1.getLast?
            = some "✅ All done! Copy the output above and use it with your AI tool."
        ∧ ∀ e, fetch = Except.error e →
            ("🔴 ERROR: Could not fetch posts from r/" ++ subreddit ++ ".")
              ∈ (main_run env auth subreddit limit time_filter comment_limit fetch).1) := by
  by_cases hc : credentialsPresent env = true
  · cases auth with
    | ok u =>
      cases u
      have hri : get_reddit_instance env (Except.ok ())
          = (["✅ Successfully authenticated with Reddit API."], none) := by
        simp [get_reddit_instance, hc]
      have hmain : main_run env (Except.ok ()) subreddit limit time_filter comment_limit fetch
          = (["✅ Successfully authenticated with Reddit API."]
              ++ get_newletter_content subreddit limit time_filter comment_limit fetch
              ++ ["", "✅ All done! Copy the output above and use it with your AI tool."], 0) := by
        simp only [main_run, hri]
      refine ⟨?_, fun _ _ => ⟨?_, ?_, ?_⟩⟩
      · rw [hmain]
        simp [hc]
      · rw [hmain]
      · have h1 : (main_run env (Except.ok ()) subreddit limit time_filter
              comment_limit fetch).1
            = ["✅ Successfully authenticated with Reddit API."]
              ++ get_newletter_content subreddit limit time_filter comment_limit fetch
              ++ ["", "✅ All done! Copy the output above and use it with your AI tool."] := by
          rw [hmain]
        rw [h1, List.getLast?_append_cons]
        rfl
      · intro e hfe
        subst hfe
        have h1 : (main_run env (Except.ok ()) subreddit limit time_filter
              comment_limit (Except.error e)).1
            = ["✅ Successfully authenticated with Reddit API."]
              ++ get_newletter_content subreddit limit time_filter comment_limit
                  (Except.error e)
              ++ ["", "✅ All done! Copy the output above and use it with your AI tool."] := by
          rw [hmain]
        rw [h1]
        simp [get_newletter_content, fetchErrorLines]
    | error e =>
      have hri : get_reddit_instance env (Except.error e)
          = (["🔴 ERROR: Could not authenticate with Reddit. Please check your credentials. Details: "
                ++ e], some 1) := by
        simp [get_reddit_instance, hc]
      have hmain : main_run env (Except.error e) subreddit limit time_filter comment_limit fetch
          = (["🔴 ERROR: Could not authenticate with Reddit. Please check your credentials. Details: "
                ++ e], 1) := by
        simp only [main_run, hri]
      constructor
      · rw [hmain]
        exact ⟨fun _ => Or.inr ⟨e, rfl⟩, fun _ => rfl⟩
      · intro _ ha
        exact absurd ha (by simp)
  · have hcf : credentialsPresent env = false := by
      revert hc; cases credentialsPresent env <;> simp
    have hri : get_reddit_instance env auth
        = (["🔴 ERROR: Reddit API credentials not found.",
            "Please set REDDIT_CLIENT_ID, REDDIT_CLIENT_SECRET, and REDDIT_USER_AGENT environment variables.",
            "Check the README.md for instructions."], some 1) := by
      simp [get_reddit_instance, hcf]
    have hmain : main_run env auth subreddit limit time_filter comment_limit fetch
        = (["🔴 ERROR: Reddit API credentials not found.",
            "Please set REDDIT_CLIENT_ID, REDDIT_CLIENT_SECRET, and REDDIT_USER_AGENT environment variables.",
            "Check the README.md for instructions."], 1) := by
      simp only [main_run, hri]
    constructor
    · rw [hmain]
      exact ⟨fun _ => Or.inl hcf, fun _ => rfl⟩
    · intro h _
      rw [h] at hcf
      exact absurd hcf (by simp)

/-- C7 witness: valid credentials, successful authentication, nonexistent
community; the process still exits 0. -/
def exEnv : Env :=
  { reddit_client_id := some "id", reddit_client_secret := some "secret",
    reddit_user_agent := some "agent" }

/-- C7 witness: with credentials present and authentication succeeding, a
failed post fetch still leaves exit status 0. -/
theorem c7_witness :
    (main_run exEnv (Except.ok ()) "test" 5 "month" 3
        (Except.error "received 404 HTTP response")).2 = 0 :=
  ((c7_exit_status exEnv (Except.ok ()) "test" 5 "month" 3
      (Except.error "received 404 HTTP response")).2 (by decide) rfl).1

/-- C8: the lines printed for one selected comment are its score line, the
wrapped body (one print of the fill result), and the 20-dash separator; and
every wrapped line of the body starts with the four-space indent and is at
most 70 characters long. -/
theorem c8_render_comment (c : Comment) :
    renderCommentLines c
      = ("  - (Score: " ++ toString c.score ++ ")")
          :: emitLines (textwrap_fill_lines c.body)
          ++ [String.mk (List.replicate 20 '-')]
    ∧ ∀ l ∈ textwrap_fill_lines c.body,
        (∃ r : List Char, l.data = "    ".data ++ r) ∧ l.length ≤ 70 := by
  constructor
  · rfl
  · intro l hl
    simp only [textwrap_fill_lines, textwrap_wrap, List.mem_map] at hl
    obtain ⟨l0, hl0, rfl⟩ := hl
    obtain ⟨r, hr, hrlen⟩ :=
      wrapFuel_mem 70 ("    " : String).data (by decide) _ true _ l0 hl0
    refine ⟨⟨r, ?_⟩, ?_⟩
    · simpa using hr
    · have hlen : (String.mk l0).length = l0.length := rfl
      rw [hlen, hr, List.length_append]
      have h4 : ("    " : String).data.length = 4 := by decide
      omega

/-- C8 witness: a concrete wrapped line of a concrete comment body. -/
theorem c8_witness :
    (∃ r : List Char, ("    hello world" : String).data = "    ".data ++ r)
    ∧ ("    hello world" : String).length ≤ 70 :=
  (c8_render_comment exComment).2 "    hello world" (by decide)

/-- C9: the whole computation is a pure function of the given upstream
data: two invocations of the selection, of the per-community rendering and
of the full run on the same inputs give identical output (no hidden
randomness or time-dependent state in the model). -/
theorem c9_deterministic (env : Env) (auth : Except String Unit) (subreddit : String)
    (limit : Int) (time_filter : String) (comment_limit : Int)
    (fetch : Except String (List PostData)) (forest : List ForestItem) :
    selectTopComments forest comment_limit = selectTopComments forest comment_limit
    ∧ get_newletter_content subreddit limit time_filter comment_limit fetch
        = get_newletter_content subreddit limit time_filter comment_limit fetch
    ∧ main_run env auth subreddit limit time_filter comment_limit fetch
        = main_run env auth subreddit limit time_filter comment_limit fetch :=
  ⟨rfl, rfl, rfl⟩
